import Mathlib

/-!
Verification of the ps-bot control core against its specification.

The Python control core is shallowly embedded over `ℚ`:

* floats become exact rationals (the claims under study involve only
  exact decimal arithmetic, so `ℚ` is a faithful carrier);
* mutable objects become immutable records, methods become state
  transformers returning the updated record (and the method result);
* wall-clock time (`time.monotonic()`) becomes an explicit `now : ℚ`
  argument to `PIDController.update` and its callers;
* byte strings become `List ℕ` of byte values;
* functions that can raise become `Except String` / `Option` valued.

Source files embedded here:
  `shared_lib/drive_state/state.py`, `shared_lib/pid.py`,
  `shared_lib/tracking/pan_tracker.py`,
  `shared_lib/tracking/target_follower.py`,
  `crawler/follow_coordinator.py`, `pi_car/controller.py`,
  `robot_control/protocol.py`, `shared_lib/networking/robot_server.py`.
-/

/-! ## shared_lib/drive_state/state.py -/

/-- Embeds `_clamp_percent` from `shared_lib/drive_state/state.py`. -/
def clamp_percent (value : ℚ) : ℚ :=
  if value < -100 then -100
  else if value > 100 then 100
  else value

/-- Embeds `scale_axis` from `shared_lib/drive_state/state.py`:
scale a raw axis value ×100, then clamp to [-100, 100]. -/
def scale_axis (value : ℚ) : ℚ :=
  clamp_percent (value * 100)

/-- Embeds `DesiredDriveState` from `shared_lib/drive_state/state.py`: the four
percent slots (the lock is a concurrency artifact with no effect on the
sequential semantics embedded here). -/
structure DesiredDriveState where
  drive : ℚ := 0
  steer : ℚ := 0
  pan : ℚ := 0
  tilt : ℚ := 0
deriving DecidableEq, Repr

/-- Embeds `DesiredDriveState.set_drive_percent`. -/
def DesiredDriveState.set_drive_percent (s : DesiredDriveState) (percent : ℚ) :
    DesiredDriveState :=
  { s with drive := clamp_percent percent }

/-- Embeds `DesiredDriveState.set_steer_percent`. -/
def DesiredDriveState.set_steer_percent (s : DesiredDriveState) (percent : ℚ) :
    DesiredDriveState :=
  { s with steer := clamp_percent percent }

/-- Embeds `DesiredDriveState.set_pan_percent`. -/
def DesiredDriveState.set_pan_percent (s : DesiredDriveState) (percent : ℚ) :
    DesiredDriveState :=
  { s with pan := clamp_percent percent }

/-- Embeds `DesiredDriveState.set_tilt_percent`. -/
def DesiredDriveState.set_tilt_percent (s : DesiredDriveState) (percent : ℚ) :
    DesiredDriveState :=
  { s with tilt := clamp_percent percent }

/-- Embeds `DesiredDriveState.snapshot`: atomically read all four slots. -/
def DesiredDriveState.snapshot (s : DesiredDriveState) : ℚ × ℚ × ℚ × ℚ :=
  (s.drive, s.steer, s.pan, s.tilt)

/-! ## shared_lib/pid.py -/

/-- Embeds `PIDController` from `shared_lib/pid.py`.  The fields `integral`,
`prev_error`, `prev_time` embed the private `_integral`, `_prev_error`,
`_prev_time`; `prev_time = none` embeds the Python `None`. -/
structure PIDController where
  kp : ℚ := 1
  ki : ℚ := 0
  kd : ℚ := 0
  integral_limit : ℚ := 100
  integral : ℚ := 0
  prev_error : ℚ := 0
  prev_time : Option ℚ := none
deriving DecidableEq, Repr

/-- Embeds `PIDController.update`, with `time.monotonic()` made the explicit
argument `now`.  Returns the updated controller and the output. -/
def PIDController.update (pid : PIDController) (now error : ℚ) :
    PIDController × ℚ :=
  let dt : ℚ := match pid.prev_time with
    | none => 0
    | some t => now - t
  let p := pid.kp * error
  let integral1 := pid.integral + error * dt
  let integral2 := max (-pid.integral_limit) (min pid.integral_limit integral1)
  let i := pid.ki * integral2
  let d := pid.kd * (if dt > 0 then (error - pid.prev_error) / dt else 0)
  ({ pid with integral := integral2, prev_error := error, prev_time := some now },
   p + i + d)

/-- Embeds `PIDController.reset`. -/
def PIDController.reset (pid : PIDController) : PIDController :=
  { pid with integral := 0, prev_error := 0, prev_time := none }

/-! ## shared_lib/tracking/pan_tracker.py and target_follower.py -/

/-- Embeds `PanTracker` from `shared_lib/tracking/pan_tracker.py`. -/
structure PanTracker where
  pid : PIDController
  max_step : ℚ := 2
  position : ℚ := 0
deriving DecidableEq, Repr

/-- Embeds `PanTracker.update`: PID output treated as a velocity correction,
clamped to ±`max_step`, integrated into `position`, clamped to ±100. -/
def PanTracker.update (t : PanTracker) (now deviation : ℚ) : PanTracker × ℚ :=
  let r := t.pid.update now deviation
  let correction := max (-t.max_step) (min t.max_step r.2)
  let position1 := max (-100) (min 100 (t.position + correction))
  ({ t with pid := r.1, position := position1 }, position1)

/-- Embeds `PanTracker.reset` (the Python default argument is `position=0.0`). -/
def PanTracker.reset (t : PanTracker) (position : ℚ := 0) : PanTracker :=
  { t with pid := t.pid.reset, position := position }

/-- Embeds `TargetFollower` from `shared_lib/tracking/target_follower.py`. -/
structure TargetFollower where
  pid : PIDController
  drive_speed : ℚ := 30
deriving DecidableEq, Repr

/-- Embeds `TargetFollower.update`: steer is the clamped PID output, drive the
configured constant speed. -/
def TargetFollower.update (f : TargetFollower) (now deviation : ℚ) :
    TargetFollower × ℚ × ℚ :=
  let r := f.pid.update now deviation
  let steer := max (-100) (min 100 r.2)
  ({ f with pid := r.1 }, steer, f.drive_speed)

/-- Embeds `TargetFollower.reset`. -/
def TargetFollower.reset (f : TargetFollower) : TargetFollower :=
  { f with pid := f.pid.reset }

/-! ## crawler/follow_coordinator.py -/

/-- Embeds `BUTTON_A` from `crawler/follow_coordinator.py`. -/
def BUTTON_A : ℤ := 2

/-- Embeds `PersonFollowCoordinator` from `crawler/follow_coordinator.py`
(the detector, the lock, the thread and the stop event are omitted:
the embedded methods below do not consult them). -/
structure PersonFollowCoordinator where
  pan_tracker : PanTracker
  follower : TargetFollower
  desired_state : DesiredDriveState
  base_drive_speed : ℚ := 100
  drive_exponent : ℚ := 1
  update_hz : ℚ := 20
  scan_speed : ℚ := 50
  active : Bool := false
  scanning : Bool := false
  scan_position : ℚ := 0
  scan_direction : ℚ := 1
deriving DecidableEq, Repr

/-- Embeds `PersonFollowCoordinator._reset_scan`. -/
def PersonFollowCoordinator.reset_scan (c : PersonFollowCoordinator) :
    PersonFollowCoordinator :=
  { c with scan_position := 0, scan_direction := 1, scanning := false }

/-- Embeds `PersonFollowCoordinator.on_button`: only a press of `BUTTON_A`
toggles `active`; on deactivation the scan state and both PID users are
reset and drive, steer and pan are zeroed. -/
def PersonFollowCoordinator.on_button (c : PersonFollowCoordinator)
    (index : ℤ) (pressed : Bool) : PersonFollowCoordinator :=
  if index ≠ BUTTON_A ∨ ¬pressed then c
  else
    let now_active := !c.active
    if now_active then { c with active := true }
    else
      let c1 := { c with active := false }.reset_scan
      { c1 with
        pan_tracker := c1.pan_tracker.reset
        follower := c1.follower.reset
        desired_state :=
          ((c1.desired_state.set_drive_percent 0).set_steer_percent 0).set_pan_percent 0 }

/-- Embeds `PersonFollowCoordinator.on_manual_input`: a no-op while inactive;
otherwise deactivates, resets scan state and both PID users, and zeroes
the pan slot. -/
def PersonFollowCoordinator.on_manual_input (c : PersonFollowCoordinator) :
    PersonFollowCoordinator :=
  if ¬c.active then c
  else
    let c1 := { c with active := false }.reset_scan
    { c1 with
      pan_tracker := c1.pan_tracker.reset
      follower := c1.follower.reset
      desired_state := c1.desired_state.set_pan_percent 0 }

/-- Embeds `PersonFollowCoordinator._advance_scan`: move `scan_position` by
`scan_speed / update_hz` in `scan_direction`, clamping at ±100 and
reversing the direction at the limits. -/
def PersonFollowCoordinator.advance_scan (c : PersonFollowCoordinator) :
    PersonFollowCoordinator :=
  let step := c.scan_speed / c.update_hz * c.scan_direction
  let position1 := c.scan_position + step
  if position1 ≥ 100 then
    { c with scan_position := 100, scan_direction := -1 }
  else if position1 ≤ -100 then
    { c with scan_position := -100, scan_direction := 1 }
  else
    { c with scan_position := position1 }

/-! ## The two `DesiredStateUpdater.on_axis` variants

`shared_lib/drive_state/state.py` and `pi_car/controller.py` both define a
`DesiredStateUpdater` with identical fields; their `on_axis` methods differ:
the pi_car variant passes the raw pairs through `circle_to_square`, the
shared_lib variant scales the raw values directly.  `circle_to_square` in the
source computes `r = math.hypot(x, y)`; since the square root is generally
irrational, `r` is passed here as an explicit argument constrained by
`IsHypot` in the theorems. -/

/-- Embeds `circle_to_square` from `shared_lib/drive_state/state.py` /
`pi_car/controller.py`, with the value of `math.hypot(x, y)` supplied as the
explicit argument `r` (see `IsHypot`). -/
def circle_to_square (x y r : ℚ) : ℚ × ℚ :=
  if r < 1 / 1000000000 then (0, 0)
  else
    let ux := x / r
    let uy := y / r
    let m := max |ux| |uy|
    let sx := ux / m
    let sy := uy / m
    (sx * r, sy * r)

/-- The relation `r = math.hypot(x, y)`: `r` is the nonnegative root of `x^2 + y^2`. -/
def IsHypot (x y r : ℚ) : Prop := 0 ≤ r ∧ r ^ 2 = x ^ 2 + y ^ 2

/-- Embeds `DesiredStateUpdater` fields (identical in both source variants).
Default axis indices are `DRIVE_AXIS = 4`, `STEER_AXIS = 3`, `PAN_AXIS = 0`,
`TILT_AXIS = 1`. -/
structure DesiredStateUpdater where
  desired_state : DesiredDriveState
  drive_axis : ℤ := 4
  steer_axis : ℤ := 3
  pan_axis : ℤ := 0
  tilt_axis : ℤ := 1
  raw_drive : ℚ := 0
  raw_steer : ℚ := 0
  raw_pan : ℚ := 0
  raw_tilt : ℚ := 0
deriving DecidableEq, Repr

/-- Embeds `DesiredStateUpdater.on_axis` from `shared_lib/drive_state/state.py`:
deadzone, update the raw field selected by `index` (unrecognized indices
return early), then write the scaled raw values - no remap. -/
def DesiredStateUpdater.on_axis (u : DesiredStateUpdater) (index : ℤ)
    (value0 : ℚ) : DesiredStateUpdater :=
  let value := if |value0| < 5 / 100 then 0 else value0
  let u1opt : Option DesiredStateUpdater :=
    if index = u.drive_axis then some { u with raw_drive := -value }
    else if index = u.steer_axis then some { u with raw_steer := value }
    else if index = u.pan_axis then some { u with raw_pan := value }
    else if index = u.tilt_axis then some { u with raw_tilt := value }
    else none
  match u1opt with
  | none => u
  | some u1 =>
    let drive := u1.raw_drive
    let steer := u1.raw_steer
    let pan := u1.raw_pan
    let tilt := u1.raw_tilt
    { u1 with desired_state :=
        (((u1.desired_state.set_drive_percent (scale_axis drive)).set_steer_percent
              (scale_axis steer)).set_pan_percent
            (scale_axis (-pan))).set_tilt_percent (scale_axis (-tilt)) }

/-- Embeds `DesiredStateUpdater.on_axis` from `pi_car/controller.py`: identical to
the shared_lib variant except that the `(steer, drive)` and `(pan, tilt)`
raw pairs are passed through `circle_to_square` before scaling and writing.
`rSD` and `rPT` carry the two `math.hypot` values (see `IsHypot`). -/
def DesiredStateUpdater.on_axis_pi_car (u : DesiredStateUpdater) (index : ℤ)
    (value0 : ℚ) (rSD rPT : ℚ) : DesiredStateUpdater :=
  let value := if |value0| < 5 / 100 then 0 else value0
  let u1opt : Option DesiredStateUpdater :=
    if index = u.drive_axis then some { u with raw_drive := -value }
    else if index = u.steer_axis then some { u with raw_steer := value }
    else if index = u.pan_axis then some { u with raw_pan := value }
    else if index = u.tilt_axis then some { u with raw_tilt := value }
    else none
  match u1opt with
  | none => u
  | some u1 =>
    let sd := circle_to_square u1.raw_steer u1.raw_drive rSD
    let pt := circle_to_square u1.raw_pan u1.raw_tilt rPT
    let steer := sd.1
    let drive := sd.2
    let pan := pt.1
    let tilt := pt.2
    { u1 with desired_state :=
        (((u1.desired_state.set_drive_percent (scale_axis drive)).set_steer_percent
              (scale_axis steer)).set_pan_percent
            (scale_axis (-pan))).set_tilt_percent (scale_axis (-tilt)) }

/-- An axis index is recognized by an updater when it matches one of the
four configured axis indices. -/
def DesiredStateUpdater.recognizes (u : DesiredStateUpdater) (index : ℤ) : Prop :=
  index = u.drive_axis ∨ index = u.steer_axis ∨ index = u.pan_axis ∨
    index = u.tilt_axis

/-! ## robot_control/protocol.py -/

/-- Frame type tags shared by `protocol.py` and `robot_server.py`. -/
def TYPE_BUTTON : ℕ := 0

/-- Embeds the constant `TYPE_AXIS = 1`. -/
def TYPE_AXIS : ℕ := 1

/-- Embeds the constant `TYPE_HAT = 2`. -/
def TYPE_HAT : ℕ := 2

/-- Embeds the constant `TYPE_TELEMETRY = 0x10`. -/
def TYPE_TELEMETRY : ℕ := 16

/-- Embeds the constant `AXIS_SCALE = 1000`. -/
def AXIS_SCALE : ℚ := 1000

/-- The Python builtin `round` on an exact rational: round half to even,
the rounding mode used by `round(value * 1000)` in
`encode_axis`. -/
def python_round (q : ℚ) : ℤ :=
  if q - (⌊q⌋ : ℚ) < 1 / 2 then ⌊q⌋
  else if 1 / 2 < q - (⌊q⌋ : ℚ) then ⌊q⌋ + 1
  else if ⌊q⌋ % 2 = 0 then ⌊q⌋ else ⌊q⌋ + 1

/-- Embeds `_clamp_int16` from `robot_control/protocol.py`. -/
def clamp_int16 (value : ℤ) : ℤ :=
  if value < -32768 then -32768
  else if value > 32767 then 32767
  else value

/-- Embeds `_validate_index` from `robot_control/protocol.py`: raises `ValueError`
unless `0 <= index <= 255`. -/
def validate_index (index : ℤ) : Except String ℤ :=
  if 0 ≤ index ∧ index ≤ 255 then .ok index
  else .error "Index must be in range 0..255"

/-- The two big-endian bytes of a signed 16-bit value (twos-complement),
as written by `struct.pack(">BBh", ...)`. -/
def int16_bytes (value : ℤ) : ℕ × ℕ :=
  let w := (value % 65536).toNat
  (w / 256, w % 256)

/-- Embeds `struct.Struct` packing for the `>BBh` layout: two unsigned bytes and one big-endian
signed 16-bit integer; raises `struct.error` on out-of-range arguments. -/
def pack_BBh (b0 b1 : ℕ) (value : ℤ) : Except String (List ℕ) :=
  if b0 ≤ 255 ∧ b1 ≤ 255 ∧ -32768 ≤ value ∧ value ≤ 32767 then
    .ok [b0, b1, (int16_bytes value).1, (int16_bytes value).2]
  else .error "struct.error"

/-- Embeds `encode_axis` from `robot_control/protocol.py`: validate the index,
scale the value ×1000, round, clamp to the int16 range and pack. -/
def encode_axis (index : ℤ) (value : ℚ) : Except String (List ℕ) := do
  let axis_index ← validate_index index
  let scaled := clamp_int16 (python_round (value * AXIS_SCALE))
  pack_BBh TYPE_AXIS axis_index.toNat scaled

/-- The signed 16-bit value read from two big-endian bytes, as decoded by
`struct.Struct(">BBh").unpack`. -/
def int16_of_bytes (hi lo : ℕ) : ℤ :=
  let w := hi * 256 + lo
  if w < 32768 then (w : ℤ) else (w : ℤ) - 65536

/-- The event dispatched by `RobotSocketServer._handle_frame` to one of the
`on_axis` / `on_button` / `on_hat` callbacks. -/
inductive ControlEvent where
  | axis (index : ℕ) (value : ℚ)
  | button (index : ℕ) (pressed : Bool)
  | hat (index : ℕ) (x y : ℤ)
deriving DecidableEq, Repr

/-- Embeds `RobotSocketServer._handle_frame` from
`shared_lib/networking/robot_server.py`: unpack a 4-byte `>BBh` frame and
dispatch by type; a hat value outside `[0, 8]` or an unknown type byte
raises `ValueError` (embedded as `.error`). -/
def handle_frame (frame : List ℕ) : Except String ControlEvent :=
  match frame with
  | [msg_type, index, hi, lo] =>
    let value := int16_of_bytes hi lo
    if msg_type = TYPE_AXIS then .ok (.axis index ((value : ℚ) / AXIS_SCALE))
    else if msg_type = TYPE_BUTTON then .ok (.button index (value != 0))
    else if msg_type = TYPE_HAT then
      if 0 ≤ value ∧ value ≤ 8 then
        .ok (.hat index (value / 3 - 1) (value % 3 - 1))
      else .error "Hat value must be in range 0..8"
    else .error "Unknown frame type"
  | _ => .error "struct.error"

/-- The frame-dispatch loop of `RobotSocketServer._serve_client` applied to
a received byte stream: split off 4-byte frames and feed each to
`_handle_frame`.  The call sits outside any exception handler, so a raised
`ValueError` ends the loop: the result pairs the events dispatched before
any error with the error (if one occurred); bytes after a bad frame are
never processed. -/
def serve_client_frames : List ℕ → List ControlEvent × Option String
  | b0 :: b1 :: b2 :: b3 :: rest =>
    match handle_frame [b0, b1, b2, b3] with
    | .error e => ([], some e)
    | .ok ev =>
      let (evs, err) := serve_client_frames rest
      (ev :: evs, err)
  | _ => ([], none)

/-- Embeds the size `TELEMETRY_STRUCT.size = 25` (type byte + six 4-byte floats). -/
def TELEMETRY_SIZE : ℕ := 25

/-- Embeds `TelemetryData` from `robot_control/protocol.py`.  Each field holds the
32-bit big-endian word of the corresponding IEEE-754 `f32`; the bit-level
payload is what the byte-oriented embedding tracks (the bits-to-real
reading is a bijection applied afterwards). -/
structure TelemetryData where
  speed : ℕ
  steering : ℕ
  pan : ℕ
  tilt : ℕ
  battery_v : ℕ
  cpu_temp : ℕ
deriving DecidableEq, Repr

/-- A 32-bit big-endian word assembled from four bytes. -/
def be_word32 (a b c d : ℕ) : ℕ := ((a * 256 + b) * 256 + c) * 256 + d

/-- Byte `k` of a buffer (defined for `k < length`, the only use sites). -/
def byte_at (data : List ℕ) (k : ℕ) : ℕ := data.getD k 0

/-- The 32-bit big-endian word starting at offset `k` of a buffer. -/
def word_at (data : List ℕ) (k : ℕ) : ℕ :=
  be_word32 (byte_at data k) (byte_at data (k + 1)) (byte_at data (k + 2))
    (byte_at data (k + 3))

/-- Embeds `decode_telemetry` from `robot_control/protocol.py`: `none` on a short
buffer or a wrong leading type tag, otherwise the six big-endian 32-bit
float words at offsets 1, 5, 9, 13, 17, 21.  Total (never raises). -/
def decode_telemetry (data : List ℕ) : Option TelemetryData :=
  if data.length < TELEMETRY_SIZE then none
  else if data.head? ≠ some TYPE_TELEMETRY then none
  else
    some ⟨word_at data 1, word_at data 5, word_at data 9, word_at data 13,
      word_at data 17, word_at data 21⟩

/-! ## Helper lemmas and concrete fixtures -/

/-- Clamping is idempotent. -/
theorem clamp_percent_idem (x : ℚ) : clamp_percent (clamp_percent x) = clamp_percent x := by
  unfold clamp_percent
  split_ifs <;> first | rfl | linarith

/-- A scaled axis value is already clamped, so the setter clamp is a no-op. -/
theorem clamp_percent_scale_axis (y : ℚ) :
    clamp_percent (scale_axis y) = scale_axis y := by
  unfold scale_axis
  exact clamp_percent_idem _

/-- A concrete pure-proportional PID, as the repository tests construct
with `PIDController(kp=50.0)`. -/
def examplePID : PIDController := { kp := 50 }

/-- A concrete coordinator fixture in the `Active` state with nonzero
drive, steer, pan and tilt slots. -/
def activeCoordinator : PersonFollowCoordinator :=
  { pan_tracker := { pid := examplePID }
    follower := { pid := examplePID }
    desired_state := { drive := 50, steer := 30, pan := 20, tilt := 10 }
    active := true }

/-! ## C7 -/

/-- **C7**: for every input `x` and every prior state, `set_drive_percent x`
followed by `snapshot` yields `clamp(x, -100, 100)` in the drive slot and
leaves steer, pan and tilt unchanged; analogously for the other three
setters. -/
theorem C7_setters_clamp_and_preserve (s : DesiredDriveState) (x : ℚ) :
    (s.set_drive_percent x).snapshot = (clamp_percent x, s.steer, s.pan, s.tilt) ∧
    (s.set_steer_percent x).snapshot = (s.drive, clamp_percent x, s.pan, s.tilt) ∧
    (s.set_pan_percent x).snapshot = (s.drive, s.steer, clamp_percent x, s.tilt) ∧
    (s.set_tilt_percent x).snapshot = (s.drive, s.steer, s.pan, clamp_percent x) :=
  ⟨rfl, rfl, rfl, rfl⟩

/-! ## C8 -/

/-- **C8 counterexample**: a positive per-tick step below 1
(`scan_speed = 10`, `update_hz = 20`, step 0.5) does not reach the limit
from `scan_position = 99`: one advance gives 99.5 with the direction still
`+1` - the clamp-to-100-and-flip asserted for every positive step fails. -/
theorem C8_counterexample :
    (0 : ℚ) < 10 / 20 ∧
    ({ activeCoordinator with scan_speed := 10, scan_position := 99 }
        : PersonFollowCoordinator).advance_scan.scan_position = 199 / 2 ∧
    ({ activeCoordinator with scan_speed := 10, scan_position := 99 }
        : PersonFollowCoordinator).advance_scan.scan_direction = 1 ∧
    ((199 / 2 : ℚ) ≠ 100) ∧ ((1 : ℚ) ≠ -1) := by
  refine ⟨by norm_num, ?_, ?_, by norm_num, by norm_num⟩ <;>
    norm_num [activeCoordinator, PersonFollowCoordinator.advance_scan]

/-- **C8 (amended)**: from `scan_position = 99` with `scan_direction = +1`
and a per-tick step `scan_speed / update_hz ≥ 1` (rather than merely
positive; the defaults give 2.5), one scan advance clamps the position to
100 and flips the direction to `-1`, and the following advance strictly
decreases the position. -/
theorem C8_scan_limit_reverses (c : PersonFollowCoordinator)
    (hpos : c.scan_position = 99) (hdir : c.scan_direction = 1)
    (hstep : 1 ≤ c.scan_speed / c.update_hz) :
    c.advance_scan.scan_position = 100 ∧
    c.advance_scan.scan_direction = -1 ∧
    c.advance_scan.advance_scan.scan_position < c.advance_scan.scan_position := by
  have e1 : c.advance_scan = { c with scan_position := 100, scan_direction := -1 } := by
    unfold PersonFollowCoordinator.advance_scan
    rw [hpos, hdir, mul_one, if_pos (by linarith)]
  rw [e1]
  refine ⟨rfl, rfl, ?_⟩
  unfold PersonFollowCoordinator.advance_scan
  have hk : 0 < c.scan_speed / c.update_hz := by linarith
  by_cases hlow :
      (100 : ℚ) + c.scan_speed / c.update_hz * (-1) ≤ -100
  · rw [if_neg (by simp only; linarith), if_pos (by simpa using hlow)]
    norm_num
  · rw [if_neg (by simp only; linarith), if_neg (by simpa using hlow)]
    simp only
    linarith

/-- **C8 witness**: the concrete fixture with the default
`scan_speed = 50`, `update_hz = 20` and `scan_position = 99`. -/
theorem C8_scan_limit_reverses_witness :
    ({ activeCoordinator with scan_position := 99 }
        : PersonFollowCoordinator).advance_scan.scan_position = 100 ∧
    ({ activeCoordinator with scan_position := 99 }
        : PersonFollowCoordinator).advance_scan.scan_direction = -1 ∧
    ({ activeCoordinator with scan_position := 99 }
        : PersonFollowCoordinator).advance_scan.advance_scan.scan_position <
      ({ activeCoordinator with scan_position := 99 }
        : PersonFollowCoordinator).advance_scan.scan_position :=
  C8_scan_limit_reverses _ rfl rfl (by norm_num [activeCoordinator])

/-! ## C6 -/

/-- **C6**: `decode_telemetry` returns no value exactly when the buffer is
shorter than the 25-byte frame or its first byte is not the telemetry tag;
being a total function into `Option`, it never raises; on a well-formed
frame it returns the six big-endian 32-bit float words at offsets
1, 5, 9, 13, 17 and 21. -/
theorem C6_decode_telemetry_characterization (data : List ℕ) :
    (decode_telemetry data = none ↔
      data.length < TELEMETRY_SIZE ∨ data.head? ≠ some TYPE_TELEMETRY) ∧
    (TELEMETRY_SIZE ≤ data.length → data.head? = some TYPE_TELEMETRY →
      decode_telemetry data =
        some ⟨word_at data 1, word_at data 5, word_at data 9, word_at data 13,
          word_at data 17, word_at data 21⟩) := by
  unfold decode_telemetry
  split_ifs with h1 h2
  · exact ⟨by simp [h1], fun hlen _ => absurd h1 (by omega)⟩
  · exact ⟨by simp [h2], fun _ hhead => absurd hhead h2⟩
  · push_neg at h2
    refine ⟨?_, fun _ _ => rfl⟩
    simp [h1, h2]

/-- **C6 witness**: a 25-byte all-zero payload with the telemetry tag
decodes to six zero words. -/
theorem C6_decode_telemetry_witness :
    decode_telemetry (16 :: List.replicate 24 0) = some ⟨0, 0, 0, 0, 0, 0⟩ := by
  rw [(C6_decode_telemetry_characterization (16 :: List.replicate 24 0)).2
    (by decide) (by decide)]
  decide

/-! ## C1 -/

/-- **C1 counterexample**: from an active coordinator with nonzero drive
and steer slots, `on_manual_input` leaves drive at 50 and steer at 30 -
it does not zero them as the claim (same reset behavior as the toggle
path, drive = steer = 0) requires. -/
theorem C1_counterexample :
    activeCoordinator.active = true ∧
    activeCoordinator.on_manual_input.active = false ∧
    activeCoordinator.on_manual_input.desired_state.drive = 50 ∧
    activeCoordinator.on_manual_input.desired_state.steer = 30 ∧
    ¬(activeCoordinator.on_manual_input.desired_state.drive = 0 ∧
      activeCoordinator.on_manual_input.desired_state.steer = 0) := by
  decide

/-- **C1 (amended)**: a manual-input override while active deactivates the
coordinator, resets the pan-tracker and follower PID state, resets the scan
state to `(scanning = false, position = 0, direction = +1)` and sets pan to
0 - but unlike the toggle-off path it leaves the drive and steer slots
unchanged (manual control takes them over directly). -/
theorem C1_manual_override_behavior (c : PersonFollowCoordinator)
    (h : c.active = true) :
    c.on_manual_input.active = false ∧
    c.on_manual_input.scanning = false ∧
    c.on_manual_input.scan_position = 0 ∧
    c.on_manual_input.scan_direction = 1 ∧
    c.on_manual_input.pan_tracker = c.pan_tracker.reset ∧
    c.on_manual_input.follower = c.follower.reset ∧
    c.on_manual_input.desired_state.pan = 0 ∧
    c.on_manual_input.desired_state.drive = c.desired_state.drive ∧
    c.on_manual_input.desired_state.steer = c.desired_state.steer ∧
    c.on_manual_input.desired_state.tilt = c.desired_state.tilt := by
  unfold PersonFollowCoordinator.on_manual_input
    PersonFollowCoordinator.reset_scan DesiredDriveState.set_pan_percent
  simp [h, clamp_percent]
  norm_num

/-- **C1 witness**: the amended behavior at the concrete active fixture. -/
theorem C1_manual_override_behavior_witness :
    activeCoordinator.on_manual_input.active = false ∧
    activeCoordinator.on_manual_input.scanning = false ∧
    activeCoordinator.on_manual_input.scan_position = 0 ∧
    activeCoordinator.on_manual_input.scan_direction = 1 ∧
    activeCoordinator.on_manual_input.pan_tracker =
      activeCoordinator.pan_tracker.reset ∧
    activeCoordinator.on_manual_input.follower =
      activeCoordinator.follower.reset ∧
    activeCoordinator.on_manual_input.desired_state.pan = 0 ∧
    activeCoordinator.on_manual_input.desired_state.drive =
      activeCoordinator.desired_state.drive ∧
    activeCoordinator.on_manual_input.desired_state.steer =
      activeCoordinator.desired_state.steer ∧
    activeCoordinator.on_manual_input.desired_state.tilt =
      activeCoordinator.desired_state.tilt :=
  C1_manual_override_behavior activeCoordinator rfl

/-! ## C3 -/

/-- A fresh `PIDController(ki=1, integral_limit=5)`: every other gain at
its Python default, in particular `kp = 1`. -/
def freshKi1Lim5 : PIDController := { ki := 1, integral_limit := 5 }

/-- The accumulated-then-clamped integral stays within `±L` when `L ≥ 0`. -/
theorem abs_clamp_le (L x : ℚ) (h : 0 ≤ L) : |max (-L) (min L x)| ≤ L := by
  rw [abs_le]
  exact ⟨le_max_left _ _, max_le (by linarith) (min_le_left _ _)⟩

/-- **C3 counterexample**: on a fresh controller with `ki = 1` and
`integral_limit = 5` (and the remaining gains at their defaults, so
`kp = 1`), two updates with error 100 one second apart output
`kp·100 + ki·5 = 105.0` on the second call, not 5.0. -/
theorem C3_counterexample :
    freshKi1Lim5.kp = 1 ∧
    ((freshKi1Lim5.update 0 100).1.update 1 100).2 = 105 ∧
    ((105 : ℚ) ≠ 5) := by
  refine ⟨rfl, ?_, by norm_num⟩
  norm_num [freshKi1Lim5, PIDController.update, min_def, max_def]

/-- **C3 (amended)**: `update` clamps the accumulated integral to
`±integral_limit` after each update (for a nonnegative limit), and with
the proportional and derivative gains zeroed (`kp = 0`, as the repository
test `test_anti_windup` constructs) the stated instance holds: two updates
with error 100 one second apart output exactly `ki · 5 = 5.0`. -/
theorem C3_anti_windup (pid : PIDController) (now err : ℚ)
    (h : 0 ≤ pid.integral_limit) :
    |((pid.update now err).1).integral| ≤ pid.integral_limit ∧
    ((({ kp := 0, ki := 1, integral_limit := 5 } : PIDController).update
        0 100).1.update 1 100).2 = 5 :=
  ⟨abs_clamp_le _ _ h,
   by norm_num [PIDController.update, min_def, max_def]⟩

/-- **C3 witness**: the clamp bound applied to the concrete fresh
controller. -/
theorem C3_anti_windup_witness :
    |((freshKi1Lim5.update 0 100).1).integral| ≤ freshKi1Lim5.integral_limit ∧
    ((({ kp := 0, ki := 1, integral_limit := 5 } : PIDController).update
        0 100).1.update 1 100).2 = 5 :=
  C3_anti_windup freshKi1Lim5 0 100 (by norm_num [freshKi1Lim5])

/-! ## C4 -/

/-- A pure-integral tracker configuration (`kp = 0`, `ki = 1`). -/
def pureITracker : PanTracker := { pid := { kp := 0, ki := 1 } }

/-- **C4 counterexample**: with a nonzero integral gain the PID correction
at deviation 0 is not 0: after reaching position 1 by prior updates,
`update(0.0)` moves the position to 2. -/
theorem C4_counterexample :
    ((pureITracker.update 0 1).1.update 1 1).2 = 1 ∧
    (((pureITracker.update 0 1).1.update 1 1).1.update 2 0).2 = 2 ∧
    ((2 : ℚ) ≠ 1) := by
  refine ⟨?_, ?_, by norm_num⟩ <;>
    norm_num [pureITracker, PanTracker.update, PIDController.update,
      min_def, max_def]

/-- At zero error the PID output vanishes provided the integral and
derivative terms contribute nothing (`ki·integral = 0`, `kd·prev_error = 0`,
nonnegative limit). -/
theorem pid_update_zero_output (pid : PIDController) (now : ℚ)
    (hki : pid.ki * pid.integral = 0) (hkd : pid.kd * pid.prev_error = 0)
    (hlim : 0 ≤ pid.integral_limit) :
    (pid.update now 0).2 = 0 := by
  have hd : ∀ dt : ℚ,
      pid.kd * (if dt > 0 then (0 - pid.prev_error) / dt else 0) = 0 := by
    intro dt
    split_ifs with h
    · have he : pid.kd * ((0 - pid.prev_error) / dt) =
          pid.kd * pid.prev_error * (-1 / dt) := by ring
      rw [he, hkd, zero_mul]
    · exact mul_zero _
  have hi : ∀ dt : ℚ,
      pid.ki * max (-pid.integral_limit)
        (min pid.integral_limit (pid.integral + 0 * dt)) = 0 := by
    intro dt
    rw [zero_mul, add_zero]
    rcases mul_eq_zero.mp hki with h | h
    · rw [h, zero_mul]
    · rw [h, min_eq_right hlim, max_eq_right (by linarith), mul_zero]
  unfold PIDController.update
  cases hpt : pid.prev_time with
  | none =>
    simp only
    rw [hi 0, hd 0]
    ring
  | some t =>
    simp only
    rw [hi (now - t), hd (now - t)]
    ring

/-- **C4 (amended)**: `update(0.0)` leaves the position unchanged and
returns it for every `PanTracker` whose PID contributes no integral or
derivative term at zero deviation (`ki·integral = 0` and
`kd·prev_error = 0`, in particular every pure-proportional configuration,
which is how the repository instantiates the tracker), with nonnegative
`integral_limit` and `max_step`, and position within `[-100, 100]` (an
invariant of every prior update). -/
theorem C4_update_zero_holds_position (t : PanTracker) (now : ℚ)
    (hki : t.pid.ki * t.pid.integral = 0)
    (hkd : t.pid.kd * t.pid.prev_error = 0)
    (hlim : 0 ≤ t.pid.integral_limit) (hms : 0 ≤ t.max_step)
    (hlo : -100 ≤ t.position) (hhi : t.position ≤ 100) :
    (t.update now 0).2 = t.position ∧
    (t.update now 0).1.position = t.position := by
  have hz : (t.pid.update now 0).2 = 0 :=
    pid_update_zero_output t.pid now hki hkd hlim
  refine ⟨?_, ?_⟩ <;>
  · show max (-100 : ℚ)
        (min 100 (t.position +
          max (-t.max_step) (min t.max_step (t.pid.update now 0).2))) =
      t.position
    rw [hz, min_eq_right hms, max_eq_right (by linarith : -t.max_step ≤ 0),
      add_zero, min_eq_right hhi, max_eq_right hlo]

/-- A concrete pure-proportional tracker holding position 40. -/
def holdTracker : PanTracker := { pid := { kp := 50 }, position := 40 }

/-- **C4 witness**: the amended hold property at the concrete
pure-proportional tracker. -/
theorem C4_update_zero_holds_position_witness :
    (holdTracker.update 3 0).2 = holdTracker.position ∧
    (holdTracker.update 3 0).1.position = holdTracker.position :=
  C4_update_zero_holds_position holdTracker 3 (by norm_num [holdTracker])
    (by norm_num [holdTracker]) (by norm_num [holdTracker])
    (by norm_num [holdTracker]) (by norm_num [holdTracker])
    (by norm_num [holdTracker])

/-! ## Protocol helper lemmas -/

/-- The Python `round(v, 3)`: round to 3 decimal digits, half to even. -/
def python_round3 (v : ℚ) : ℚ :=
  (python_round (v * AXIS_SCALE) : ℚ) / AXIS_SCALE

/-- Rounding moves a rational by at most one half. -/
theorem python_round_sub_abs_le (q : ℚ) :
    |(python_round q : ℚ) - q| ≤ 1 / 2 := by
  have h0 : (⌊q⌋ : ℚ) ≤ q := Int.floor_le q
  have h1 : q < ⌊q⌋ + 1 := Int.lt_floor_add_one q
  unfold python_round
  split_ifs <;>
  · rw [abs_le]
    push_cast
    constructor <;> linarith

/-- Rounding keeps a value of magnitude at most 1000 within `±1000`. -/
theorem python_round_bounds (q : ℚ) (h1 : -1000 ≤ q) (h2 : q ≤ 1000) :
    -1000 ≤ python_round q ∧ python_round q ≤ 1000 := by
  have habs := python_round_sub_abs_le q
  rw [abs_le] at habs
  constructor
  · have hq : (-1001 : ℚ) < (python_round q : ℚ) := by linarith
    have hq2 : (-1001 : ℤ) < python_round q := by exact_mod_cast hq
    omega
  · have hq : (python_round q : ℚ) < 1001 := by linarith
    have hq2 : python_round q < (1001 : ℤ) := by exact_mod_cast hq
    omega

/-- The clamped value always lies in the int16 range. -/
theorem clamp_int16_mem (v : ℤ) :
    -32768 ≤ clamp_int16 v ∧ clamp_int16 v ≤ 32767 := by
  unfold clamp_int16
  split_ifs <;> omega

/-- Clamping is the identity on the int16 range. -/
theorem clamp_int16_eq_of_mem (v : ℤ) (h1 : -32768 ≤ v) (h2 : v ≤ 32767) :
    clamp_int16 v = v := by
  unfold clamp_int16
  rw [if_neg (by omega), if_neg (by omega)]

/-- Packing an int16 value into two big-endian bytes and reading the
signed value back is the identity; both bytes fit in one octet. -/
theorem int16_bytes_spec (v : ℤ) (h1 : -32768 ≤ v) (h2 : v ≤ 32767) :
    int16_of_bytes (int16_bytes v).1 (int16_bytes v).2 = v ∧
    (int16_bytes v).1 ≤ 255 ∧ (int16_bytes v).2 ≤ 255 := by
  simp only [int16_bytes, int16_of_bytes]
  split_ifs <;> refine ⟨?_, ?_, ?_⟩ <;> omega

/-- An axis frame dispatches to the axis callback with the int16 value
rescaled by 1/1000. -/
theorem handle_frame_axis (index hi lo : ℕ) :
    handle_frame [TYPE_AXIS, index, hi, lo] =
      .ok (.axis index ((int16_of_bytes hi lo : ℚ) / AXIS_SCALE)) := rfl

/-! ## C5 -/

/-- **C5**: for every index in `[0, 255]` and value in `[-1, 1]`,
`encode_axis` succeeds with a 4-byte frame, and decoding that frame as the
server does (`value / 1000`) recovers the index and the value rounded to
3 decimal digits, within the `±1/1000` quantization. -/
theorem C5_encode_decode_roundtrip (i : ℤ) (v : ℚ)
    (hi0 : 0 ≤ i) (hi1 : i ≤ 255) (hv0 : -1 ≤ v) (hv1 : v ≤ 1) :
    encode_axis i v = .ok [TYPE_AXIS, i.toNat,
        (int16_bytes (python_round (v * AXIS_SCALE))).1,
        (int16_bytes (python_round (v * AXIS_SCALE))).2] ∧
    handle_frame [TYPE_AXIS, i.toNat,
        (int16_bytes (python_round (v * AXIS_SCALE))).1,
        (int16_bytes (python_round (v * AXIS_SCALE))).2] =
      .ok (.axis i.toNat (python_round3 v)) ∧
    |python_round3 v - v| ≤ 1 / 1000 := by
  have hb : -1000 ≤ python_round (v * AXIS_SCALE) ∧
      python_round (v * AXIS_SCALE) ≤ 1000 :=
    python_round_bounds (v * AXIS_SCALE)
      (by unfold AXIS_SCALE; linarith) (by unfold AXIS_SCALE; linarith)
  have hclamp : clamp_int16 (python_round (v * AXIS_SCALE)) =
      python_round (v * AXIS_SCALE) :=
    clamp_int16_eq_of_mem _ (by omega) (by omega)
  have hrt := int16_bytes_spec (python_round (v * AXIS_SCALE))
    (by omega) (by omega)
  refine ⟨?_, ?_, ?_⟩
  · unfold encode_axis
    rw [show validate_index i = Except.ok i from by
      unfold validate_index; rw [if_pos ⟨hi0, hi1⟩]]
    show pack_BBh TYPE_AXIS i.toNat
        (clamp_int16 (python_round (v * AXIS_SCALE))) = _
    rw [hclamp]
    unfold pack_BBh
    rw [if_pos ⟨by decide, by omega, by omega, by omega⟩]
  · rw [handle_frame_axis, hrt.1]
    rfl
  · have habs := python_round_sub_abs_le (v * 1000)
    rw [abs_le] at habs
    unfold python_round3 AXIS_SCALE
    rw [abs_le]
    constructor <;> linarith

/-- **C5 witness**: index 7 with value 0.25 round-trips to exactly 0.25. -/
theorem C5_encode_decode_roundtrip_witness :
    encode_axis 7 (1 / 4) = .ok [TYPE_AXIS, (7 : ℤ).toNat,
        (int16_bytes (python_round (1 / 4 * AXIS_SCALE))).1,
        (int16_bytes (python_round (1 / 4 * AXIS_SCALE))).2] ∧
    handle_frame [TYPE_AXIS, (7 : ℤ).toNat,
        (int16_bytes (python_round (1 / 4 * AXIS_SCALE))).1,
        (int16_bytes (python_round (1 / 4 * AXIS_SCALE))).2] =
      .ok (.axis (7 : ℤ).toNat (python_round3 (1 / 4))) ∧
    |python_round3 (1 / 4) - 1 / 4| ≤ 1 / 1000 :=
  C5_encode_decode_roundtrip 7 (1 / 4) (by norm_num) (by norm_num)
    (by norm_num) (by norm_num)

/-! ## C9 -/

/-- **C9**: `encode_axis` fails exactly when the index lies outside
`[0, 255]`; for an in-range index it accepts every rational value, returns
a 4-byte frame, and the packed 16-bit slot holds the ×1000-scaled rounded
value silently clamped to `[-32768, 32767]` (recoverable by the decoder). -/
theorem C9_encode_axis_error_iff (i : ℤ) (v : ℚ) :
    ((∃ frame, encode_axis i v = .ok frame) ↔ 0 ≤ i ∧ i ≤ 255) ∧
    (0 ≤ i → i ≤ 255 →
      encode_axis i v = .ok [TYPE_AXIS, i.toNat,
          (int16_bytes (clamp_int16 (python_round (v * AXIS_SCALE)))).1,
          (int16_bytes (clamp_int16 (python_round (v * AXIS_SCALE)))).2] ∧
      -32768 ≤ clamp_int16 (python_round (v * AXIS_SCALE)) ∧
      clamp_int16 (python_round (v * AXIS_SCALE)) ≤ 32767 ∧
      int16_of_bytes
          (int16_bytes (clamp_int16 (python_round (v * AXIS_SCALE)))).1
          (int16_bytes (clamp_int16 (python_round (v * AXIS_SCALE)))).2 =
        clamp_int16 (python_round (v * AXIS_SCALE))) := by
  have hmem := clamp_int16_mem (python_round (v * AXIS_SCALE))
  have hok : ∀ (_ : 0 ≤ i) (_ : i ≤ 255),
      encode_axis i v = .ok [TYPE_AXIS, i.toNat,
        (int16_bytes (clamp_int16 (python_round (v * AXIS_SCALE)))).1,
        (int16_bytes (clamp_int16 (python_round (v * AXIS_SCALE)))).2] := by
    intro h0 h1
    unfold encode_axis
    rw [show validate_index i = Except.ok i from by
      unfold validate_index; rw [if_pos ⟨h0, h1⟩]]
    show pack_BBh TYPE_AXIS i.toNat
        (clamp_int16 (python_round (v * AXIS_SCALE))) = _
    unfold pack_BBh
    rw [if_pos ⟨by decide, by omega, hmem.1, hmem.2⟩]
  refine ⟨⟨?_, fun h => ⟨_, hok h.1 h.2⟩⟩, fun h0 h1 =>
    ⟨hok h0 h1, hmem.1, hmem.2, (int16_bytes_spec _ hmem.1 hmem.2).1⟩⟩
  rintro ⟨frame, hf⟩
  by_contra hrange
  have he : encode_axis i v = .error "Index must be in range 0..255" := by
    unfold encode_axis
    rw [show validate_index i = Except.error "Index must be in range 0..255"
      from by unfold validate_index; rw [if_neg hrange]]
    rfl
  rw [he] at hf
  exact Except.noConfusion hf

/-- **C9 witness**: index 3 with the out-of-range value 40 is accepted and
its scaled value 40000 is silently clamped to 32767. -/
theorem C9_encode_axis_error_iff_witness :
    encode_axis 3 40 = .ok [TYPE_AXIS, (3 : ℤ).toNat,
        (int16_bytes (clamp_int16 (python_round (40 * AXIS_SCALE)))).1,
        (int16_bytes (clamp_int16 (python_round (40 * AXIS_SCALE)))).2] ∧
    -32768 ≤ clamp_int16 (python_round (40 * AXIS_SCALE)) ∧
    clamp_int16 (python_round (40 * AXIS_SCALE)) ≤ 32767 ∧
    int16_of_bytes
        (int16_bytes (clamp_int16 (python_round (40 * AXIS_SCALE)))).1
        (int16_bytes (clamp_int16 (python_round (40 * AXIS_SCALE)))).2 =
      clamp_int16 (python_round (40 * AXIS_SCALE)) :=
  (C9_encode_axis_error_iff 3 40).2 (by norm_num) (by norm_num)

/-! ## C10 -/

/-- **C10**: a 4-byte frame whose type byte is none of BUTTON/AXIS/HAT, or
a HAT frame whose packed value lies outside `[0, 8]`, makes
`_handle_frame` raise `ValueError`; the per-client loop does not catch it,
so the error ends the loop and the bytes after the bad frame are never
processed. -/
theorem C10_bad_frame_raises_and_ends_loop (b0 b1 b2 b3 : ℕ)
    (rest : List ℕ) :
    (¬(b0 = TYPE_BUTTON ∨ b0 = TYPE_AXIS ∨ b0 = TYPE_HAT) →
      handle_frame [b0, b1, b2, b3] = .error "Unknown frame type") ∧
    (b0 = TYPE_HAT →
      ¬(0 ≤ int16_of_bytes b2 b3 ∧ int16_of_bytes b2 b3 ≤ 8) →
      handle_frame [b0, b1, b2, b3] =
        .error "Hat value must be in range 0..8") ∧
    (∀ e, handle_frame [b0, b1, b2, b3] = .error e →
      serve_client_frames (b0 :: b1 :: b2 :: b3 :: rest) = ([], some e)) := by
  refine ⟨?_, ?_, ?_⟩
  · intro h
    push_neg at h
    simp [handle_frame, h.1, h.2.1, h.2.2]
  · intro hb0 hval
    subst hb0
    simp [handle_frame, TYPE_HAT, TYPE_AXIS, TYPE_BUTTON, hval]
  · intro e he
    unfold serve_client_frames
    rw [he]

/-- **C10 witness**: an unknown type byte 5 ends the loop; the well-formed
axis frame bytes that follow are never dispatched. -/
theorem C10_bad_frame_raises_and_ends_loop_witness :
    serve_client_frames [5, 0, 0, 0, 1, 3, 0, 250] =
      ([], some "Unknown frame type") :=
  (C10_bad_frame_raises_and_ends_loop 5 0 0 0 [1, 3, 0, 250]).2.2
    "Unknown frame type"
    ((C10_bad_frame_raises_and_ends_loop 5 0 0 0 [1, 3, 0, 250]).1 (by decide))

/-! ## C2 -/

/-- A shared_lib updater fixture with default axis indices, a previously
received raw steer of 0.6 and a default-zero drive state. -/
def sharedUpdaterExample : DesiredStateUpdater :=
  { desired_state := {}, raw_steer := 3 / 5 }

/-- **C2 counterexample**: after the recognized drive-axis event
`on_axis(4, -0.8)` on the shared_lib updater, the raw pair is
`(steer, drive) = (0.6, 0.8)` with hypot exactly 1; the circle-to-square
remap mandates a drive slot of `scale(1) = 100`, but the shared_lib
`on_axis` writes `scale(0.8) = 80`: it does not pass the pair through the
remap. -/
theorem C2_counterexample :
    IsHypot (3 / 5) (4 / 5) 1 ∧
    (sharedUpdaterExample.on_axis 4 (-(4 / 5))).raw_steer = 3 / 5 ∧
    (sharedUpdaterExample.on_axis 4 (-(4 / 5))).raw_drive = 4 / 5 ∧
    scale_axis (circle_to_square (3 / 5) (4 / 5) 1).2 = 100 ∧
    (sharedUpdaterExample.on_axis 4 (-(4 / 5))).desired_state.drive = 80 ∧
    ((80 : ℚ) ≠ 100) := by
  refine ⟨⟨by norm_num, by norm_num⟩, ?_, ?_, ?_, ?_, by norm_num⟩ <;>
    norm_num [sharedUpdaterExample, DesiredStateUpdater.on_axis,
      circle_to_square, scale_axis, clamp_percent,
      DesiredDriveState.set_drive_percent, DesiredDriveState.set_steer_percent,
      DesiredDriveState.set_pan_percent, DesiredDriveState.set_tilt_percent,
      abs_eq_max_neg, max_def, min_def]

/-- **C2 (amended)**: only the pi_car variant of
`DesiredStateUpdater.on_axis` passes the `(steer, drive)` and `(pan, tilt)`
raw pairs through the circle-to-square remap before scaling ×100, clamping
and writing into the shared drive state; on every recognized axis event the
shared_lib variant writes the ×100-scaled clamped raw values directly,
without the remap. -/
theorem C2_remap_only_in_pi_car (u : DesiredStateUpdater) (index : ℤ)
    (value0 : ℚ) (rSD rPT : ℚ) (h : u.recognizes index) :
    ((u.on_axis_pi_car index value0 rSD rPT).desired_state.drive =
        scale_axis (circle_to_square
          (u.on_axis_pi_car index value0 rSD rPT).raw_steer
          (u.on_axis_pi_car index value0 rSD rPT).raw_drive rSD).2 ∧
      (u.on_axis_pi_car index value0 rSD rPT).desired_state.steer =
        scale_axis (circle_to_square
          (u.on_axis_pi_car index value0 rSD rPT).raw_steer
          (u.on_axis_pi_car index value0 rSD rPT).raw_drive rSD).1 ∧
      (u.on_axis_pi_car index value0 rSD rPT).desired_state.pan =
        scale_axis (-(circle_to_square
          (u.on_axis_pi_car index value0 rSD rPT).raw_pan
          (u.on_axis_pi_car index value0 rSD rPT).raw_tilt rPT).1) ∧
      (u.on_axis_pi_car index value0 rSD rPT).desired_state.tilt =
        scale_axis (-(circle_to_square
          (u.on_axis_pi_car index value0 rSD rPT).raw_pan
          (u.on_axis_pi_car index value0 rSD rPT).raw_tilt rPT).2)) ∧
    ((u.on_axis index value0).desired_state.drive =
        scale_axis (u.on_axis index value0).raw_drive ∧
      (u.on_axis index value0).desired_state.steer =
        scale_axis (u.on_axis index value0).raw_steer ∧
      (u.on_axis index value0).desired_state.pan =
        scale_axis (-(u.on_axis index value0).raw_pan) ∧
      (u.on_axis index value0).desired_state.tilt =
        scale_axis (-(u.on_axis index value0).raw_tilt)) := by
  by_cases h1 : index = u.drive_axis
  · simp [DesiredStateUpdater.on_axis_pi_car, DesiredStateUpdater.on_axis,
      if_pos h1,
      DesiredDriveState.set_drive_percent, DesiredDriveState.set_steer_percent,
      DesiredDriveState.set_pan_percent, DesiredDriveState.set_tilt_percent,
      clamp_percent_scale_axis]
  by_cases h2 : index = u.steer_axis
  · simp [DesiredStateUpdater.on_axis_pi_car, DesiredStateUpdater.on_axis,
      if_neg h1, if_pos h2,
      DesiredDriveState.set_drive_percent, DesiredDriveState.set_steer_percent,
      DesiredDriveState.set_pan_percent, DesiredDriveState.set_tilt_percent,
      clamp_percent_scale_axis]
  by_cases h3 : index = u.pan_axis
  · simp [DesiredStateUpdater.on_axis_pi_car, DesiredStateUpdater.on_axis,
      if_neg h1, if_neg h2, if_pos h3,
      DesiredDriveState.set_drive_percent, DesiredDriveState.set_steer_percent,
      DesiredDriveState.set_pan_percent, DesiredDriveState.set_tilt_percent,
      clamp_percent_scale_axis]
  by_cases h4 : index = u.tilt_axis
  · simp [DesiredStateUpdater.on_axis_pi_car, DesiredStateUpdater.on_axis,
      if_neg h1, if_neg h2, if_neg h3, if_pos h4,
      DesiredDriveState.set_drive_percent, DesiredDriveState.set_steer_percent,
      DesiredDriveState.set_pan_percent, DesiredDriveState.set_tilt_percent,
      clamp_percent_scale_axis]
  · rcases h with h | h | h | h <;> contradiction

/-- **C2 witness**: the remap characterization of the pi_car variant at the
concrete drive-axis event (hypot values 1 and 0 for the two pairs). -/
theorem C2_remap_only_in_pi_car_witness :
    (sharedUpdaterExample.on_axis_pi_car 4 (-(4 / 5)) 1 0).desired_state.drive =
      scale_axis (circle_to_square
        (sharedUpdaterExample.on_axis_pi_car 4 (-(4 / 5)) 1 0).raw_steer
        (sharedUpdaterExample.on_axis_pi_car 4 (-(4 / 5)) 1 0).raw_drive 1).2 ∧
    (sharedUpdaterExample.on_axis 4 (-(4 / 5))).desired_state.drive =
      scale_axis (sharedUpdaterExample.on_axis 4 (-(4 / 5))).raw_drive :=
  ⟨(C2_remap_only_in_pi_car sharedUpdaterExample 4 (-(4 / 5)) 1 0
      (Or.inl rfl)).1.1,
   (C2_remap_only_in_pi_car sharedUpdaterExample 4 (-(4 / 5)) 1 0
      (Or.inl rfl)).2.1⟩
